import Mathlib

/-!
Steam Deck GUI demo: display-mode selection, lifecycle and frame loop.

A shallow embedding of `Core::Application` (`src/src/Application.cpp`,
`src/include/Application.h`).

* Platform calls (SDL3, Dear ImGui) are external.  Each call whose outcome the
  program inspects is represented by an oracle value; calls that acquire or
  release a platform resource are recorded in a call log.  Calls whose outcome
  is only written to the log output (`SDL_SetAppMetadata`,
  `SDL_SetWindowPosition`, `SDL_Log`) are left out.
* C++ `int` values are mathematical integers.  The pixel area
  `1LL * w * h` of two 32-bit dimensions always fits in 64 bits, so no
  wrap-around is modelled for it (`area_fits_int64`).
* A finite `float` is a rational number; `static_cast<int>` of a float whose
  truncation is in the range of `int` truncates toward zero.
* Pointers are `Option` values, `none` being `nullptr`.
* The two compile options of `Application.h` are the fields of `BuildOptions`.
-/

namespace Core

/-! ## Display modes -/

/-- The fields of `SDL_DisplayMode` read by the program. -/
structure SDL_DisplayMode where
  w : Int
  h : Int
  refresh_rate : ℚ
deriving DecidableEq

/-- The conversion `static_cast<int>(x)` of a finite float: truncation toward zero. -/
def static_cast_int (x : ℚ) : Int := Int.tdiv x.num (x.den : Int)

/-- The lambda `area` of `GetFullscreenMode`: `1LL * m->w * m->h`. -/
def area (m : SDL_DisplayMode) : Int := 1 * m.w * m.h

/-- A `const SDL_DisplayMode*` that is not null: either the mode owned by the
desktop-mode query or the element `modes[i]` of the fullscreen-mode array. -/
inductive ModePtr where
  | desktop (m : SDL_DisplayMode)
  | entry (i : Nat) (m : SDL_DisplayMode)
deriving DecidableEq

/-- The display mode a pointer points to. -/
def ModePtr.mode : ModePtr → SDL_DisplayMode
  | .desktop m => m
  | .entry _ m => m

/-- First loop of `GetFullscreenMode`:
`for (i...) max_area = std::max(max_area, area(modes[i]))`, run over the modes
not yet visited. -/
def maxAreaLoop : List SDL_DisplayMode → Int → Int
  | [], max_area => max_area
  | m :: rest, max_area => maxAreaLoop rest (max max_area (area m))

/-- Second loop of `GetFullscreenMode`, run over the modes not yet visited;
`i` is the loop counter, `best_hz` and `best` are the loop variables. -/
def bestLoop (max_area : Int) : List SDL_DisplayMode → Nat → Int → ModePtr → ModePtr
  | [], _, _, best => best
  | m :: rest, i, best_hz, best =>
    if area m = max_area then
      let hz := static_cast_int m.refresh_rate
      if hz > best_hz then
        bestLoop max_area rest (i + 1) hz (.entry i m)
      else
        bestLoop max_area rest (i + 1) best_hz best
    else
      bestLoop max_area rest (i + 1) best_hz best

/-- The method `Application::GetFullscreenMode`.  `modes` is the outcome of
`SDL_GetFullscreenDisplayModes` (the array with its `count`, or `none` for a
null pointer) and `desktop` the outcome of `SDL_GetDesktopDisplayMode`. -/
def GetFullscreenMode (modes : Option (List SDL_DisplayMode))
    (desktop : Option SDL_DisplayMode) : Option ModePtr :=
  match modes with
  | none => desktop.map ModePtr.desktop
  | some [] => desktop.map ModePtr.desktop
  | some (m0 :: rest) =>
    let best := ModePtr.entry 0 m0
    let max_area := maxAreaLoop (m0 :: rest) 0
    let best_hz := 0
    some (bestLoop max_area (m0 :: rest) 0 best_hz best)

/-! ### The selection rule in the words of the specification -/

/-- The value `M`: the maximum of 0 and every candidate's area. -/
def specMaxArea (modes : List SDL_DisplayMode) : Int :=
  (modes.map area).foldr max 0

/-- The value `H`: the largest refresh rate truncated to an integer among the
candidates whose area is `M`; `none` when no candidate has area `M`. -/
def specMaxHz (modes : List SDL_DisplayMode) : Option Int :=
  ((modes.filter (fun c => decide (area c = specMaxArea modes))).map
    (fun c => static_cast_int c.refresh_rate)).max?

/-- The selection on the non-empty candidate list `m0 :: rest`: when `H ≥ 1`
the first candidate in list order of area `M` and truncated refresh rate `H`,
otherwise the first candidate of the list. -/
def specSelect (m0 : SDL_DisplayMode) (rest : List SDL_DisplayMode) : Option ModePtr :=
  let modes := m0 :: rest
  match specMaxHz modes with
  | some H =>
    if 1 ≤ H then
      let p := fun c : SDL_DisplayMode =>
        decide (area c = specMaxArea modes ∧ static_cast_int c.refresh_rate = H)
      (modes.find? p).map (ModePtr.entry (modes.findIdx p))
    else some (.entry 0 m0)
  | none => some (.entry 0 m0)

/-! ## Application state and platform calls -/

/-- Identity of a platform object behind an `SDL_Window*`, `SDL_Renderer*` or
`SDL_Gamepad*`. -/
abbrev Handle := Nat

/-- The type `SDL_JoystickID`. -/
abbrev SDL_JoystickID := Nat

/-- The struct `AnalogJoystickState`. -/
structure AnalogJoystickState where
  x_axis_val : Int := 0
  y_axis_val : Int := 0
  stick_pressed : Bool := false
deriving DecidableEq

/-- The data members of `Application` (the floating-point `m_perf_stats` and the
`m_launch_args`, which influence no control flow, are left out). -/
structure Application where
  m_window : Option Handle
  m_displayId : Nat
  m_renderer : Option Handle
  m_gamepad : Option Handle
  m_running : Bool
  m_left_stick_state : AnalogJoystickState := {}
  m_right_stick_state : AnalogJoystickState := {}
deriving DecidableEq

/-- The constructor `Application::Application()`. -/
def Application.new : Application :=
  { m_window := none, m_displayId := 0, m_renderer := none, m_gamepad := none,
    m_running := false }

/-- The compile options of `Application.h`. -/
structure BuildOptions where
  USE_FULLSCREEN : Bool
  USE_ADAPTIVE_SYNC : Bool
deriving DecidableEq

/-- Platform calls recorded in the call log: those that acquire or release a
platform resource, the two diagnostics written for a failed sync or blend
configuration, and one call per `Update` (`SDL_GetGamepadButton`), per `Render`
(`SDL_RenderPresent`) and per frame delay (`SDL_Delay`). -/
inductive Call where
  | SDL_Init
  | SDL_CreateWindowAndRenderer
  | cerr_sync_mode_failed
  | cerr_blend_mode_failed
  | ImGui_CreateContext
  | ImGui_ImplSDL3_InitForSDLRenderer
  | ImGui_ImplSDLRenderer3_Init
  | SDL_OpenGamepad (jid : SDL_JoystickID)
  | SDL_ShowSimpleMessageBox
  | SDL_ShowWindow
  | SDL_CloseGamepad (gamepad : Handle)
  | ImGui_ImplSDLRenderer3_Shutdown
  | ImGui_ImplSDL3_Shutdown
  | ImGui_DestroyContext
  | SDL_DestroyRenderer (renderer : Handle)
  | SDL_DestroyWindow (window : Handle)
  | SDL_Quit
  | SDL_GetGamepadButton
  | SDL_RenderPresent
  | SDL_Delay
deriving DecidableEq

/-- One entry of the array returned by `SDL_GetJoysticks`, with the outcome of
`SDL_IsGamepad` and of `SDL_OpenGamepad` for it. -/
structure Joystick where
  jid : SDL_JoystickID
  isGamepad : Bool
  openGamepad : Option Handle
deriving DecidableEq

/-- Outcomes of the platform calls made during initialisation. -/
structure Platform where
  SDL_Init : Bool
  SDL_GetPrimaryDisplay : Nat
  SDL_GetFullscreenDisplayModes : Option (List SDL_DisplayMode)
  SDL_GetDesktopDisplayMode : Option SDL_DisplayMode
  SDL_CreateWindowAndRenderer : Bool
  /-- Value left in `m_window` by `SDL_CreateWindowAndRenderer`. -/
  window : Option Handle
  /-- Value left in `m_renderer` by `SDL_CreateWindowAndRenderer`. -/
  renderer : Option Handle
  SDL_SetWindowFullscreenMode : Bool
  SDL_SetWindowFullscreen : Bool
  SDL_SetRenderVSync : Bool
  SDL_SetRenderDrawBlendMode : Bool
  SDL_GetDisplayContentScale : ℚ
  SDL_GetJoysticks : List Joystick

/-! ## Lifecycle -/

/-- The destructor `Application::~Application()`: the state it leaves and the
release calls it makes. -/
def Application.destructor (app : Application) : Application × List Call :=
  let (app1, c1) :=
    match app.m_gamepad with
    | some g => ({ app with m_gamepad := none }, [Call.SDL_CloseGamepad g])
    | none => (app, [])
  let (app2, c2) :=
    match app1.m_renderer with
    | some r =>
      ({ app1 with m_renderer := none },
        [Call.ImGui_ImplSDLRenderer3_Shutdown, Call.ImGui_ImplSDL3_Shutdown,
         Call.ImGui_DestroyContext, Call.SDL_DestroyRenderer r])
    | none => (app1, [])
  let (app3, c3) :=
    match app2.m_window with
    | some w => ({ app2 with m_window := none }, [Call.SDL_DestroyWindow w])
    | none => (app2, [])
  (app3, c1 ++ c2 ++ c3 ++ [Call.SDL_Quit])

/-- The loop of `Application::InitGamepad` over the joysticks not yet visited,
followed by `CheckForButtonMappings(); return false;`. -/
def gamepadLoop : List Joystick → Application → Bool × Application × List Call
  | [], app => (false, app, [])
  | j :: rest, app =>
    if j.isGamepad then
      let app1 := { app with m_gamepad := j.openGamepad }
      match j.openGamepad with
      | none =>
        let (r, app2, calls) := gamepadLoop rest app1
        (r, app2, Call.SDL_OpenGamepad j.jid :: calls)
      | some _ => (true, app1, [Call.SDL_OpenGamepad j.jid])
    else
      gamepadLoop rest app

/-- The method `Application::InitGamepad`, over the list returned by
`SDL_GetJoysticks`. -/
def InitGamepad (app : Application) (joysticks : List Joystick) :
    Bool × Application × List Call :=
  gamepadLoop joysticks app

/-- The part of `Application::InitGui` after window and renderer creation
(from the sync-mode configuration to the end). -/
def InitGuiConfigure (p : Platform) (app : Application) : Bool × Application × List Call :=
  let c1 := if !p.SDL_SetRenderVSync then [Call.cerr_sync_mode_failed] else []
  if app.m_renderer = none then
    (false, app, c1)
  else
    let c2 := if !p.SDL_SetRenderDrawBlendMode then [Call.cerr_blend_mode_failed] else []
    let c3 := [Call.ImGui_CreateContext]
    if p.SDL_GetDisplayContentScale = 0 then
      (false, app, c1 ++ c2 ++ c3)
    else
      (true, app, c1 ++ c2 ++ c3 ++
        [Call.ImGui_ImplSDL3_InitForSDLRenderer, Call.ImGui_ImplSDLRenderer3_Init])

/-- The method `Application::InitGui`; `opts.USE_FULLSCREEN` selects the branch
of `#ifdef _USE_FULLSCREEN`. -/
def InitGui (opts : BuildOptions) (p : Platform) (app : Application) :
    Bool × Application × List Call :=
  if !p.SDL_Init then
    (false, app, [Call.SDL_Init])
  else
    let app1 := { app with m_displayId := p.SDL_GetPrimaryDisplay }
    if app1.m_displayId = 0 then
      (false, app1, [Call.SDL_Init])
    else if opts.USE_FULLSCREEN then
      match GetFullscreenMode p.SDL_GetFullscreenDisplayModes p.SDL_GetDesktopDisplayMode with
      | none => (false, app1, [Call.SDL_Init])
      | some _ =>
        let app2 := { app1 with m_window := p.window, m_renderer := p.renderer }
        let c := [Call.SDL_Init, Call.SDL_CreateWindowAndRenderer]
        if !p.SDL_CreateWindowAndRenderer then
          (false, app2, c)
        else if !p.SDL_SetWindowFullscreenMode then
          (false, app2, c)
        else if !p.SDL_SetWindowFullscreen then
          (false, app2, c)
        else
          let (r, app3, calls) := InitGuiConfigure p app2
          (r, app3, c ++ calls)
    else
      let app2 := { app1 with m_window := p.window, m_renderer := p.renderer }
      let c := [Call.SDL_Init, Call.SDL_CreateWindowAndRenderer]
      if !p.SDL_CreateWindowAndRenderer then
        (false, app2, c)
      else
        let (r, app3, calls) := InitGuiConfigure p app2
        (r, app3, c ++ calls)

/-- The method `Application::Init`. -/
def Init (opts : BuildOptions) (p : Platform) (app : Application) :
    Bool × Application × List Call :=
  let (result, app1, c1) := InitGui opts p app
  if !result then
    (false, app1, c1)
  else
    let (result, app2, c2) := InitGamepad app1 p.SDL_GetJoysticks
    if !result then
      (false, app2, c1 ++ c2 ++ [Call.SDL_ShowSimpleMessageBox])
    else
      (true, app2, c1 ++ c2 ++ [Call.SDL_ShowWindow])

/-! ## Frame loop -/

/-- The event types `Update` distinguishes; every other type is `other`. -/
inductive SDL_EventType where
  | SDL_EVENT_QUIT
  | SDL_EVENT_WINDOW_CLOSE_REQUESTED
  | SDL_EVENT_GAMEPAD_REMOVED
  | other (code : Nat)
deriving DecidableEq

/-- What the platform delivers during one call of `Update`: the events
`SDL_PollEvent` hands out until it returns false, the state of
`SDL_GAMEPAD_BUTTON_EAST`, and the four axis values. -/
structure FrameInput where
  events : List SDL_EventType
  east : Bool
  leftx : Int := 0
  lefty : Int := 0
  rightx : Int := 0
  righty : Int := 0
deriving DecidableEq

/-- The loop `while(SDL_PollEvent(&event))` of `Update`, over the events not
yet delivered. -/
def pollLoop : List SDL_EventType → Application → Application
  | [], app => app
  | event :: rest, app =>
    if event = .SDL_EVENT_QUIT ∨ event = .SDL_EVENT_WINDOW_CLOSE_REQUESTED ∨
        event = .SDL_EVENT_GAMEPAD_REMOVED then
      pollLoop rest { app with m_running := false }
    else
      pollLoop rest app

/-- The method `Application::Update`. -/
def Update (app : Application) (f : FrameInput) : Application × List Call :=
  let app1 := pollLoop f.events app
  let app2 := if f.east then { app1 with m_running := false } else app1
  let app3 := { app2 with
    m_left_stick_state :=
      { app2.m_left_stick_state with x_axis_val := f.leftx, y_axis_val := f.lefty },
    m_right_stick_state :=
      { app2.m_right_stick_state with x_axis_val := f.rightx, y_axis_val := f.righty } }
  (app3, [Call.SDL_GetGamepadButton])

/-- The method `Application::Render`: it changes no data member. -/
def Render (_app : Application) : List Call := [Call.SDL_RenderPresent]

/-- The calls of one iteration of the loop of `Run`. -/
def frameCalls (opts : BuildOptions) : List Call :=
  [Call.SDL_GetGamepadButton, Call.SDL_RenderPresent] ++
    (if opts.USE_ADAPTIVE_SYNC then [] else [Call.SDL_Delay])

/-- The loop `while(this->m_running)` of `Run` over the inputs of the coming
iterations.  The result is `none` when the supplied inputs are used up while
the loop is still running. -/
def runLoop (opts : BuildOptions) : List FrameInput → Application →
    Option (Application × List Call)
  | [], app => if app.m_running then none else some (app, [])
  | f :: rest, app =>
    if app.m_running then
      let (app1, c1) := Update app f
      let c2 := Render app1
      let c3 := if opts.USE_ADAPTIVE_SYNC then [] else [Call.SDL_Delay]
      match runLoop opts rest app1 with
      | none => none
      | some (app2, calls) => some (app2, c1 ++ c2 ++ c3 ++ calls)
    else
      some (app, [])

/-- The method `Application::Run`. -/
def Run (opts : BuildOptions) (inputs : List FrameInput) (app : Application) :
    Option (Application × List Call) :=
  runLoop opts inputs { app with m_running := true }

/-- Whether a frame input carries a termination signal. -/
def FrameInput.stops (f : FrameInput) : Bool :=
  f.events.any (fun e => decide (e = .SDL_EVENT_QUIT ∨ e = .SDL_EVENT_WINDOW_CLOSE_REQUESTED ∨
    e = .SDL_EVENT_GAMEPAD_REMOVED)) || f.east

/-! ## Example platforms -/

/-- A platform on which every call succeeds except that the display content
scale is reported as 0; no joystick is attached. -/
def platformScaleZero : Platform :=
  { SDL_Init := true, SDL_GetPrimaryDisplay := 1,
    SDL_GetFullscreenDisplayModes := none, SDL_GetDesktopDisplayMode := none,
    SDL_CreateWindowAndRenderer := true, window := some 1, renderer := some 2,
    SDL_SetWindowFullscreenMode := true, SDL_SetWindowFullscreen := true,
    SDL_SetRenderVSync := true, SDL_SetRenderDrawBlendMode := true,
    SDL_GetDisplayContentScale := 0, SDL_GetJoysticks := [] }

/-- A platform with one fullscreen mode and one gamepad that opens, on which
every call succeeds except `SDL_SetWindowFullscreen`. -/
def platformFullscreenRefused : Platform :=
  { SDL_Init := true, SDL_GetPrimaryDisplay := 1,
    SDL_GetFullscreenDisplayModes := some [⟨1280, 800, 60⟩],
    SDL_GetDesktopDisplayMode := some ⟨1280, 800, 60⟩,
    SDL_CreateWindowAndRenderer := true, window := some 1, renderer := some 2,
    SDL_SetWindowFullscreenMode := true, SDL_SetWindowFullscreen := false,
    SDL_SetRenderVSync := true, SDL_SetRenderDrawBlendMode := true,
    SDL_GetDisplayContentScale := 1, SDL_GetJoysticks := [⟨7, true, some 3⟩] }

/-- A platform on which every call succeeds and the second of two joysticks is
a gamepad that opens. -/
def platformAllGood : Platform :=
  { SDL_Init := true, SDL_GetPrimaryDisplay := 1,
    SDL_GetFullscreenDisplayModes := some [⟨1280, 800, 60⟩],
    SDL_GetDesktopDisplayMode := some ⟨1280, 800, 60⟩,
    SDL_CreateWindowAndRenderer := true, window := some 1, renderer := some 2,
    SDL_SetWindowFullscreenMode := true, SDL_SetWindowFullscreen := true,
    SDL_SetRenderVSync := false, SDL_SetRenderDrawBlendMode := false,
    SDL_GetDisplayContentScale := 1,
    SDL_GetJoysticks := [⟨4, false, none⟩, ⟨7, true, some 3⟩] }

/-- Three joysticks: a plain joystick, a gamepad whose open fails, and a
gamepad that opens with handle 3. -/
def threeJoysticks : List Joystick :=
  [⟨4, false, none⟩, ⟨5, true, none⟩, ⟨7, true, some 3⟩]

/-! ### Facts about the two loops -/

theorem maxAreaLoop_ge_init (l : List SDL_DisplayMode) (a : Int) : a ≤ maxAreaLoop l a := by
  induction l generalizing a with
  | nil => simp [maxAreaLoop]
  | cons m rest ih =>
    simp only [maxAreaLoop]
    exact le_trans (le_max_left a (area m)) (ih _)

theorem maxAreaLoop_ge_mem (l : List SDL_DisplayMode) (a : Int) (m : SDL_DisplayMode)
    (hm : m ∈ l) : area m ≤ maxAreaLoop l a := by
  induction l generalizing a with
  | nil => cases hm
  | cons x rest ih =>
    simp only [maxAreaLoop]
    rcases List.mem_cons.mp hm with h | h
    · subst h
      exact le_trans (le_max_right a (area m)) (maxAreaLoop_ge_init rest _)
    · exact ih _ h

theorem maxAreaLoop_eq_foldr (l : List SDL_DisplayMode) (a : Int) :
    maxAreaLoop l a = (l.map area).foldr max a := by
  induction l generalizing a with
  | nil => simp [maxAreaLoop]
  | cons m rest ih =>
    simp only [maxAreaLoop, List.map_cons, List.foldr_cons]
    rw [ih]
    generalize (List.map area rest) = xs
    induction xs generalizing a with
    | nil => simp [max_comm]
    | cons x xs ih2 =>
      simp only [List.foldr_cons]
      rw [ih2, max_left_comm]

/-- When no remaining mode of area `max_area` beats `best_hz`, the second loop
leaves `best` as it is. -/
theorem bestLoop_unchanged (M : Int) (l : List SDL_DisplayMode) (i : Nat) (bh : Int)
    (b : ModePtr)
    (h : ∀ m ∈ l, area m = M → static_cast_int m.refresh_rate ≤ bh) :
    bestLoop M l i bh b = b := by
  induction l generalizing i bh b with
  | nil => simp [bestLoop]
  | cons m rest ih =>
    have hm := h m (List.mem_cons_self _ _)
    have hrest : ∀ x ∈ rest, area x = M → static_cast_int x.refresh_rate ≤ bh :=
      fun x hx => h x (List.mem_cons_of_mem _ hx)
    simp only [bestLoop]
    by_cases ha : area m = M
    · have hle := hm ha
      simp only [ha, if_true, gt_iff_lt, not_lt.mpr hle, if_false]
      exact ih _ _ _ hrest
    · simp only [ha, if_false]
      exact ih _ _ _ hrest

/-- When some remaining mode of area `max_area` beats `best_hz`, the second
loop ends on the first remaining mode of that area whose truncated refresh
rate is the largest among them. -/
theorem bestLoop_found (M : Int) (l : List SDL_DisplayMode) (i : Nat) (bh : Int)
    (b : ModePtr)
    (h : ∃ m ∈ l, area m = M ∧ bh < static_cast_int m.refresh_rate) :
    ∃ k x, l[k]? = some x ∧ bestLoop M l i bh b = .entry (i + k) x ∧
      area x = M ∧ bh < static_cast_int x.refresh_rate ∧
      (∀ m ∈ l, area m = M → static_cast_int m.refresh_rate ≤ static_cast_int x.refresh_rate) ∧
      (∀ j y, j < k → l[j]? = some y → area y = M →
        static_cast_int y.refresh_rate < static_cast_int x.refresh_rate) := by
  induction l generalizing i bh b with
  | nil => obtain ⟨m, hm, _⟩ := h; cases hm
  | cons m rest ih =>
    simp only [bestLoop]
    by_cases hbeat : area m = M ∧ bh < static_cast_int m.refresh_rate
    · obtain ⟨ha, hlt⟩ := hbeat
      simp only [ha, if_true, gt_iff_lt, hlt]
      by_cases hmore : ∃ x ∈ rest, area x = M ∧
          static_cast_int m.refresh_rate < static_cast_int x.refresh_rate
      · obtain ⟨k, x, hk, hres, hax, hltx, hmax, hfirst⟩ :=
          ih (i + 1) (static_cast_int m.refresh_rate) (.entry i m) hmore
        refine ⟨k + 1, x, by simpa using hk, ?_, hax, lt_trans hlt hltx, ?_, ?_⟩
        · rw [hres]; congr 1; omega
        · intro y hy hay
          rcases List.mem_cons.mp hy with h1 | h1
          · subst h1; exact le_of_lt hltx
          · exact hmax y h1 hay
        · intro j y hj hjy hay
          cases j with
          | zero =>
            simp only [List.getElem?_cons_zero, Option.some.injEq] at hjy
            subst hjy; exact hltx
          | succ j =>
            simp only [List.getElem?_cons_succ] at hjy
            exact hfirst j y (by omega) hjy hay
      · have hall : ∀ x ∈ rest, area x = M →
            static_cast_int x.refresh_rate ≤ static_cast_int m.refresh_rate := by
          intro x hx hax
          by_contra hc
          exact hmore ⟨x, hx, hax, not_le.mp hc⟩
        refine ⟨0, m, by simp, ?_, ha, hlt, ?_, ?_⟩
        · rw [bestLoop_unchanged M rest (i + 1) _ _ hall]; rfl
        · intro y hy hay
          rcases List.mem_cons.mp hy with h1 | h1
          · subst h1; exact le_rfl
          · exact hall y h1 hay
        · intro j y hj; omega
    · have hrest : ∃ x ∈ rest, area x = M ∧ bh < static_cast_int x.refresh_rate := by
        obtain ⟨x, hx, hax, hltx⟩ := h
        rcases List.mem_cons.mp hx with h1 | h1
        · subst h1; exact absurd ⟨hax, hltx⟩ hbeat
        · exact ⟨x, h1, hax, hltx⟩
      obtain ⟨k, x, hk, hres, hax, hltx, hmax, hfirst⟩ := ih (i + 1) bh b hrest
      have hstep : (if area m = M then
            if static_cast_int m.refresh_rate > bh then
              bestLoop M rest (i + 1) (static_cast_int m.refresh_rate) (.entry i m)
            else bestLoop M rest (i + 1) bh b
          else bestLoop M rest (i + 1) bh b) = bestLoop M rest (i + 1) bh b := by
        by_cases ha : area m = M
        · have : ¬ bh < static_cast_int m.refresh_rate := fun hc => hbeat ⟨ha, hc⟩
          simp [ha, this]
        · simp [ha]
      have hm_le : area m = M → static_cast_int m.refresh_rate ≤ bh := by
        intro ha
        by_contra hc
        exact hbeat ⟨ha, not_le.mp hc⟩
      refine ⟨k + 1, x, by simpa using hk, ?_, hax, hltx, ?_, ?_⟩
      · simp only [] at hstep ⊢
        rw [hstep, hres]; congr 1; omega
      · intro y hy hay
        rcases List.mem_cons.mp hy with h1 | h1
        · subst h1; exact le_trans (hm_le hay) (le_of_lt hltx)
        · exact hmax y h1 hay
      · intro j y hj hjy hay
        cases j with
        | zero =>
          simp only [List.getElem?_cons_zero, Option.some.injEq] at hjy
          subst hjy; exact lt_of_le_of_lt (hm_le hay) hltx
        | succ j =>
          simp only [List.getElem?_cons_succ] at hjy
          exact hfirst j y (by omega) hjy hay

theorem maxAreaLoop_attained (l : List SDL_DisplayMode) (a : Int) :
    maxAreaLoop l a = a ∨ ∃ m ∈ l, area m = maxAreaLoop l a := by
  induction l generalizing a with
  | nil => left; rfl
  | cons x rest ih =>
    simp only [maxAreaLoop]
    rcases ih (max a (area x)) with h | ⟨m, hm, h⟩
    · rcases max_choice a (area x) with h2 | h2
      · left; rw [h, h2]
      · right; exact ⟨x, List.mem_cons_self _ _, by rw [h, h2]⟩
    · right; exact ⟨m, List.mem_cons_of_mem _ hm, h⟩

/-- The pixel area of two 32-bit dimensions fits in a signed 64-bit integer. -/
theorem area_fits_int64 (m : SDL_DisplayMode)
    (hw : -2 ^ 31 ≤ m.w ∧ m.w < 2 ^ 31) (hh : -2 ^ 31 ≤ m.h ∧ m.h < 2 ^ 31) :
    -2 ^ 63 ≤ area m ∧ area m < 2 ^ 63 := by
  obtain ⟨hw1, hw2⟩ := hw
  obtain ⟨hh1, hh2⟩ := hh
  simp only [area, one_mul]
  constructor <;> nlinarith

/-- The first element satisfying `p`, given by position. -/
theorem find_first {α : Type} (p : α → Bool) (l : List α) (k : Nat) (x : α)
    (hk : l[k]? = some x) (hp : p x = true)
    (hfirst : ∀ j y, j < k → l[j]? = some y → p y = false) :
    l.find? p = some x ∧ l.findIdx p = k := by
  induction l generalizing k with
  | nil => simp at hk
  | cons a rest ih =>
    cases k with
    | zero =>
      simp only [List.getElem?_cons_zero, Option.some.injEq] at hk
      subst hk
      simp [List.findIdx_cons, hp]
    | succ k =>
      simp only [List.getElem?_cons_succ] at hk
      have ha : p a = false := hfirst 0 a (by omega) (by simp)
      have := ih k hk (fun j y hj hjy => hfirst (j + 1) y (by omega) (by simpa using hjy))
      simp [List.findIdx_cons, ha, this.1, this.2]

theorem int_max?_eq_some_iff {xs : List Int} {a : Int} :
    xs.max? = some a ↔ a ∈ xs ∧ ∀ b ∈ xs, b ≤ a := by
  haveI : Std.Antisymm (fun x y : Int => x ≤ y) := ⟨Int.le_antisymm⟩
  exact List.max?_eq_some_iff Int.le_refl
    (fun a b => by rcases max_choice a b with h | h <;> simp [h])
    (fun _ _ _ => max_le_iff)

/-- The value of `GetFullscreenMode` on a non-empty list, unfolded. -/
theorem GetFullscreenMode_cons (m0 : SDL_DisplayMode) (rest : List SDL_DisplayMode)
    (desktop : Option SDL_DisplayMode) :
    GetFullscreenMode (some (m0 :: rest)) desktop =
      some (bestLoop (maxAreaLoop (m0 :: rest) 0) (m0 :: rest) 0 0 (.entry 0 m0)) := rfl

theorem maxAreaLoop_eq_specMaxArea (modes : List SDL_DisplayMode) :
    maxAreaLoop modes 0 = specMaxArea modes := maxAreaLoop_eq_foldr modes 0

/-! ## Display-mode selection: the claims -/

/-- C9. On a non-empty candidate list `GetFullscreenMode` returns what the
selection rule says: with `M` the maximum of 0 and every area and `H` the
largest truncated refresh rate among the candidates of area `M`, the first
candidate of area `M` and truncated rate `H` when `H ≥ 1`, and the first
candidate of the list otherwise. -/
theorem GetFullscreenMode_eq_specSelect (m0 : SDL_DisplayMode)
    (rest : List SDL_DisplayMode) (desktop : Option SDL_DisplayMode) :
    GetFullscreenMode (some (m0 :: rest)) desktop = specSelect m0 rest := by
  rw [GetFullscreenMode_cons, maxAreaLoop_eq_specMaxArea]
  set modes := m0 :: rest with hmodes
  set M := specMaxArea modes with hM
  by_cases hex : ∃ m ∈ modes, area m = M ∧ 0 < static_cast_int m.refresh_rate
  · obtain ⟨k, x, hk, hres, hax, hltx, hmax, hfirst⟩ :=
      bestLoop_found M modes 0 0 (.entry 0 m0) hex
    have hxmem : x ∈ modes := List.getElem?_mem hk
    have hH : specMaxHz modes = some (static_cast_int x.refresh_rate) := by
      unfold specMaxHz
      rw [int_max?_eq_some_iff]
      constructor
      · simp only [List.mem_map, List.mem_filter, decide_eq_true_eq]
        exact ⟨x, ⟨hxmem, hax⟩, rfl⟩
      · intro b hb
        simp only [List.mem_map, List.mem_filter, decide_eq_true_eq] at hb
        obtain ⟨c, ⟨hc, hac⟩, rfl⟩ := hb
        exact hmax c hc hac
    have hone : (1 : Int) ≤ static_cast_int x.refresh_rate := hltx
    have hfind := find_first
      (fun c : SDL_DisplayMode => decide (area c = specMaxArea modes ∧
        static_cast_int c.refresh_rate = static_cast_int x.refresh_rate)) modes k x hk
      (by simp [← hM, hax])
      (by
        intro j y hj hjy
        simp only [decide_eq_false_iff_not, not_and]
        intro hay
        exact ne_of_lt (hfirst j y hj hjy hay))
    simp only [specSelect, ← hmodes, hH, hone, if_true, hfind.1, hfind.2, Option.map_some']
    rw [hres]; simp
  · have hall : ∀ m ∈ modes, area m = M → static_cast_int m.refresh_rate ≤ 0 := by
      intro m hm ha
      by_contra hc
      exact hex ⟨m, hm, ha, not_le.mp hc⟩
    rw [bestLoop_unchanged M modes 0 0 _ hall]
    unfold specSelect
    simp only [← hmodes]
    cases hH : specMaxHz modes with
    | none => rfl
    | some H =>
      have hmem := (int_max?_eq_some_iff.mp (by simpa [specMaxHz] using hH)).1
      simp only [List.mem_map, List.mem_filter, decide_eq_true_eq] at hmem
      obtain ⟨c, ⟨hc, hac⟩, rfl⟩ := hmem
      have := hall c hc hac
      have hnot : ¬ (1 : Int) ≤ static_cast_int c.refresh_rate := by omega
      simp [hnot]

/-- C9 at the candidates `[1920×1080 @ 60, 1920×1080 @ 144, 2560×1440 @ 60]`
(the third is selected) and at `[640×480 @ 0, 1920×1080 @ 0]` (no candidate of
maximum area reaches 1 Hz; the first of the list is selected). -/
theorem GetFullscreenMode_eq_specSelect_witness :
    (GetFullscreenMode (some [⟨1920, 1080, 60⟩, ⟨1920, 1080, 144⟩, ⟨2560, 1440, 60⟩]) none
        = specSelect ⟨1920, 1080, 60⟩ [⟨1920, 1080, 144⟩, ⟨2560, 1440, 60⟩] ∧
      specSelect ⟨1920, 1080, 60⟩ [⟨1920, 1080, 144⟩, ⟨2560, 1440, 60⟩]
        = some (.entry 2 ⟨2560, 1440, 60⟩)) ∧
    (GetFullscreenMode (some [⟨640, 480, 0⟩, ⟨1920, 1080, 0⟩]) none
        = specSelect ⟨640, 480, 0⟩ [⟨1920, 1080, 0⟩] ∧
      specSelect ⟨640, 480, 0⟩ [⟨1920, 1080, 0⟩] = some (.entry 0 ⟨640, 480, 0⟩)) :=
  ⟨⟨GetFullscreenMode_eq_specSelect ⟨1920, 1080, 60⟩
      [⟨1920, 1080, 144⟩, ⟨2560, 1440, 60⟩] none, by decide⟩,
    ⟨GetFullscreenMode_eq_specSelect ⟨640, 480, 0⟩ [⟨1920, 1080, 0⟩] none, by decide⟩⟩

/-- C1. On the candidates `[2048×1080 @ 0 Hz, 1920×1200 @ 0 Hz]` (sorted by
width as SDL lists them, refresh rate unspecified) the function returns the
first candidate, whose area 2211840 is smaller than the area 2304000 of the
second: the returned mode is not of maximum area. -/
theorem GetFullscreenMode_not_max_area :
    GetFullscreenMode (some [⟨2048, 1080, 0⟩, ⟨1920, 1200, 0⟩]) none
        = some (.entry 0 ⟨2048, 1080, 0⟩) ∧
      area ⟨2048, 1080, 0⟩ = 2211840 ∧ area ⟨1920, 1200, 0⟩ = 2304000 ∧
      area ⟨2048, 1080, 0⟩ < area ⟨1920, 1200, 0⟩ := by
  decide

/-- C2, as stated, fails: of two 1920×1080 candidates at 59.5 Hz and 59.75 Hz
(both truncate to 59) the first is returned, and its refresh rate is below
the refresh rate of the second, which has the maximum area too. -/
theorem GetFullscreenMode_refresh_not_max :
    GetFullscreenMode (some [⟨1920, 1080, mkRat 119 2⟩, ⟨1920, 1080, mkRat 239 4⟩]) none
        = some (.entry 0 ⟨1920, 1080, mkRat 119 2⟩) ∧
      area ⟨1920, 1080, mkRat 239 4⟩ = area ⟨1920, 1080, mkRat 119 2⟩ ∧
      (⟨1920, 1080, mkRat 119 2⟩ : SDL_DisplayMode).refresh_rate
        < (⟨1920, 1080, mkRat 239 4⟩ : SDL_DisplayMode).refresh_rate := by
  decide

/-- C2, amended. When some candidate `c` of maximum area (that area not
negative) has a refresh rate that truncates to at least 1, the returned mode
is an entry of the list, has the maximum area, and its truncated refresh rate
is at least the truncated refresh rate of every candidate of maximum area. -/
theorem GetFullscreenMode_max_truncated_refresh (m0 : SDL_DisplayMode)
    (rest : List SDL_DisplayMode) (desktop : Option SDL_DisplayMode)
    (c : SDL_DisplayMode) (hc : c ∈ m0 :: rest)
    (hmax : ∀ d ∈ m0 :: rest, area d ≤ area c) (hpos : 0 ≤ area c)
    (hhz : 1 ≤ static_cast_int c.refresh_rate) :
    ∃ i best, GetFullscreenMode (some (m0 :: rest)) desktop = some (.entry i best) ∧
      (m0 :: rest)[i]? = some best ∧ area best = area c ∧
      ∀ c2 ∈ m0 :: rest, (∀ d ∈ m0 :: rest, area d ≤ area c2) →
        static_cast_int c2.refresh_rate ≤ static_cast_int best.refresh_rate := by
  have hM : maxAreaLoop (m0 :: rest) 0 = area c := by
    apply le_antisymm
    · rcases maxAreaLoop_attained (m0 :: rest) 0 with h | ⟨m, hm, h⟩
      · rw [h]; exact hpos
      · rw [← h]; exact hmax m hm
    · exact maxAreaLoop_ge_mem _ _ c hc
  obtain ⟨k, x, hk, hres, hax, _, hbest, _⟩ :=
    bestLoop_found (area c) (m0 :: rest) 0 0 (.entry 0 m0) ⟨c, hc, rfl, by omega⟩
  refine ⟨k, x, ?_, hk, hax, ?_⟩
  · rw [GetFullscreenMode_cons, hM, hres]; simp
  · intro c2 hc2 hmax2
    exact hbest c2 hc2 (le_antisymm (hmax c2 hc2) (hmax2 c hc))

/-- C2, amended, at the candidates `[1920×1080 @ 60, 1920×1080 @ 144]`. -/
theorem GetFullscreenMode_max_truncated_refresh_witness :
    ∃ i best, GetFullscreenMode (some [⟨1920, 1080, 60⟩, ⟨1920, 1080, 144⟩]) none
        = some (.entry i best) ∧
      ([⟨1920, 1080, 60⟩, ⟨1920, 1080, 144⟩] : List SDL_DisplayMode)[i]? = some best ∧
      area best = area ⟨1920, 1080, 144⟩ ∧
      ∀ c2 ∈ ([⟨1920, 1080, 60⟩, ⟨1920, 1080, 144⟩] : List SDL_DisplayMode),
        (∀ d ∈ ([⟨1920, 1080, 60⟩, ⟨1920, 1080, 144⟩] : List SDL_DisplayMode),
          area d ≤ area c2) →
        static_cast_int c2.refresh_rate ≤ static_cast_int best.refresh_rate :=
  GetFullscreenMode_max_truncated_refresh ⟨1920, 1080, 60⟩ [⟨1920, 1080, 144⟩] none
    ⟨1920, 1080, 144⟩ (by decide) (by decide) (by decide) (by decide)

/-- C3. On a non-empty candidate list the returned pointer is an entry
`modes[i]`, and no entry at an earlier position has both the same area and
the same refresh rate as `modes[i]`. -/
theorem GetFullscreenMode_first_occurrence (m0 : SDL_DisplayMode)
    (rest : List SDL_DisplayMode) (desktop : Option SDL_DisplayMode) :
    ∃ i best, GetFullscreenMode (some (m0 :: rest)) desktop = some (.entry i best) ∧
      (m0 :: rest)[i]? = some best ∧
      ∀ j c, j < i → (m0 :: rest)[j]? = some c →
        ¬ (area c = area best ∧ c.refresh_rate = best.refresh_rate) := by
  rw [GetFullscreenMode_cons]
  by_cases hex : ∃ m ∈ m0 :: rest, area m = maxAreaLoop (m0 :: rest) 0 ∧
      0 < static_cast_int m.refresh_rate
  · obtain ⟨k, x, hk, hres, hax, _, _, hfirst⟩ :=
      bestLoop_found _ (m0 :: rest) 0 0 (.entry 0 m0) hex
    refine ⟨k, x, by rw [hres]; simp, hk, ?_⟩
    rintro j c hj hjc ⟨hac, hrc⟩
    have := hfirst j c hj hjc (hac.trans hax)
    rw [hrc] at this
    exact lt_irrefl _ this
  · have hall : ∀ m ∈ m0 :: rest, area m = maxAreaLoop (m0 :: rest) 0 →
        static_cast_int m.refresh_rate ≤ 0 := by
      intro m hm ha
      by_contra hc
      exact hex ⟨m, hm, ha, not_le.mp hc⟩
    refine ⟨0, m0, by rw [bestLoop_unchanged _ _ 0 0 _ hall], by simp, ?_⟩
    intro j c hj
    omega

/-- C3 at the candidates `[1920×1080 @ 144, 1920×1080 @ 144]`. -/
theorem GetFullscreenMode_first_occurrence_witness :
    ∃ i best, GetFullscreenMode (some [⟨1920, 1080, 144⟩, ⟨1920, 1080, 144⟩]) none
        = some (.entry i best) ∧
      ([⟨1920, 1080, 144⟩, ⟨1920, 1080, 144⟩] : List SDL_DisplayMode)[i]? = some best ∧
      ∀ j c, j < i →
        ([⟨1920, 1080, 144⟩, ⟨1920, 1080, 144⟩] : List SDL_DisplayMode)[j]? = some c →
        ¬ (area c = area best ∧ c.refresh_rate = best.refresh_rate) :=
  GetFullscreenMode_first_occurrence ⟨1920, 1080, 144⟩ [⟨1920, 1080, 144⟩] none

/-- C4. When the display subsystem reports no fullscreen modes (a null list
or a count of zero) the result is the outcome of the desktop-mode query, and
it is null exactly when that query yields nothing. -/
theorem GetFullscreenMode_no_modes (desktop : Option SDL_DisplayMode) :
    GetFullscreenMode none desktop = desktop.map ModePtr.desktop ∧
      GetFullscreenMode (some []) desktop = desktop.map ModePtr.desktop ∧
      (GetFullscreenMode none desktop = none ↔ desktop = none) ∧
      (GetFullscreenMode (some []) desktop = none ↔ desktop = none) := by
  cases desktop <;> simp [GetFullscreenMode]

/-! ## Gamepad discovery -/

theorem gamepadLoop_result (js : List Joystick) (app : Application) :
    (gamepadLoop js app).1 = js.any (fun j => j.isGamepad && j.openGamepad.isSome) := by
  induction js generalizing app with
  | nil => rfl
  | cons j rest ih =>
    simp only [gamepadLoop, List.any_cons]
    cases hg : j.isGamepad with
    | false => simpa using ih app
    | true =>
      cases ho : j.openGamepad with
      | none => simpa using ih _
      | some h => simp

theorem gamepadLoop_false_handle (js : List Joystick) (app : Application)
    (hres : (gamepadLoop js app).1 = false) (hnull : app.m_gamepad = none) :
    (gamepadLoop js app).2.1.m_gamepad = none := by
  induction js generalizing app with
  | nil => exact hnull
  | cons j rest ih =>
    simp only [gamepadLoop] at hres ⊢
    cases hg : j.isGamepad with
    | false =>
      simp only [hg, Bool.false_eq_true, if_false] at hres ⊢
      exact ih app hres hnull
    | true =>
      cases ho : j.openGamepad with
      | none =>
        simp only [hg, ho, if_true] at hres ⊢
        exact ih _ hres rfl
      | some h => simp [hg, ho] at hres

theorem gamepadLoop_true_first (js : List Joystick) (app : Application)
    (hres : (gamepadLoop js app).1 = true) :
    ∃ pre j post h, js = pre ++ j :: post ∧
      (∀ k ∈ pre, ¬ (k.isGamepad = true ∧ k.openGamepad.isSome = true)) ∧
      j.isGamepad = true ∧ j.openGamepad = some h ∧
      (gamepadLoop js app).2.1.m_gamepad = some h ∧
      (gamepadLoop js app).2.2 =
        (pre.filter (fun k => k.isGamepad)).map (fun k => Call.SDL_OpenGamepad k.jid)
          ++ [Call.SDL_OpenGamepad j.jid] := by
  induction js generalizing app with
  | nil => simp [gamepadLoop] at hres
  | cons j rest ih =>
    simp only [gamepadLoop] at hres ⊢
    cases hg : j.isGamepad with
    | false =>
      simp only [hg, Bool.false_eq_true, if_false] at hres ⊢
      obtain ⟨pre, j2, post, h, hjs, hpre, hj2, ho2, hh, hcalls⟩ := ih app hres
      refine ⟨j :: pre, j2, post, h, by simp [hjs], ?_, hj2, ho2, hh, ?_⟩
      · intro k hk
        rcases List.mem_cons.mp hk with h1 | h1
        · subst h1; simp [hg]
        · exact hpre k h1
      · rw [hcalls]; simp [List.filter_cons, hg]
    | true =>
      cases ho : j.openGamepad with
      | none =>
        simp only [hg, ho, if_true] at hres ⊢
        obtain ⟨pre, j2, post, h, hjs, hpre, hj2, ho2, hh, hcalls⟩ := ih _ hres
        refine ⟨j :: pre, j2, post, h, by simp [hjs], ?_, hj2, ho2, hh, ?_⟩
        · intro k hk
          rcases List.mem_cons.mp hk with h1 | h1
          · subst h1; simp [ho]
          · exact hpre k h1
        · rw [hcalls]; simp [List.filter_cons, hg]
      | some h =>
        refine ⟨[], j, rest, h, by simp, by simp, hg, ho, ?_, ?_⟩
        · simp [hg, ho]
        · simp [hg, ho]

/-- C10. `InitGamepad` returns true exactly when some listed joystick is a
gamepad whose open succeeds; then the stored handle is the one opened for the
first such joystick and the only joysticks opened are the gamepads before it
(whose open failed) and that joystick itself; when it returns false and the
handle was null on entry, the handle is null. -/
theorem InitGamepad_spec (app : Application) (joysticks : List Joystick) :
    ((InitGamepad app joysticks).1 = true ↔
        ∃ j ∈ joysticks, j.isGamepad = true ∧ j.openGamepad.isSome = true) ∧
      ((InitGamepad app joysticks).1 = true →
        ∃ pre j post h, joysticks = pre ++ j :: post ∧
          (∀ k ∈ pre, ¬ (k.isGamepad = true ∧ k.openGamepad.isSome = true)) ∧
          j.isGamepad = true ∧ j.openGamepad = some h ∧
          (InitGamepad app joysticks).2.1.m_gamepad = some h ∧
          (InitGamepad app joysticks).2.2 =
            (pre.filter (fun k => k.isGamepad)).map (fun k => Call.SDL_OpenGamepad k.jid)
              ++ [Call.SDL_OpenGamepad j.jid]) ∧
      ((InitGamepad app joysticks).1 = false → app.m_gamepad = none →
        (InitGamepad app joysticks).2.1.m_gamepad = none) := by
  refine ⟨?_, gamepadLoop_true_first joysticks app, gamepadLoop_false_handle joysticks app⟩
  unfold InitGamepad
  rw [gamepadLoop_result]
  simp [List.any_eq_true]

/-- C10 on a list of three joysticks: a plain joystick, a gamepad whose open
fails, and a gamepad that opens. -/
theorem InitGamepad_spec_witness :
    (InitGamepad Application.new threeJoysticks).1 = true ∧
      (InitGamepad Application.new threeJoysticks).2.1.m_gamepad = some 3 ∧
      ∃ pre j post h, threeJoysticks = pre ++ j :: post ∧
        (∀ k ∈ pre, ¬ (k.isGamepad = true ∧ k.openGamepad.isSome = true)) ∧
        j.isGamepad = true ∧ j.openGamepad = some h ∧
        (InitGamepad Application.new threeJoysticks).2.1.m_gamepad = some h ∧
        (InitGamepad Application.new threeJoysticks).2.2 =
          (pre.filter (fun k => k.isGamepad)).map (fun k => Call.SDL_OpenGamepad k.jid)
            ++ [Call.SDL_OpenGamepad j.jid] :=
  ⟨by decide, by decide,
    (InitGamepad_spec Application.new threeJoysticks).2.1 (by decide)⟩

/-! ## Lifecycle: initialisation and teardown -/

/-- C7. The destructor body is idempotent on the resource state: a second
application leaves the state of the first unchanged, all three handles are
null after the first, and the second makes no release call other than
`SDL_Quit`. -/
theorem destructor_idempotent (app : Application) :
    (Application.destructor (Application.destructor app).1).1
        = (Application.destructor app).1 ∧
      (Application.destructor app).1.m_gamepad = none ∧
      (Application.destructor app).1.m_renderer = none ∧
      (Application.destructor app).1.m_window = none ∧
      (Application.destructor (Application.destructor app).1).2 = [Call.SDL_Quit] := by
  obtain ⟨w, d, r, g, run, ls, rs⟩ := app
  cases w <;> cases r <;> cases g <;> simp [Application.destructor]

/-- C8. On a platform whose display content scale is 0 (default build),
`Init` fails after `ImGui::CreateContext` and before either GUI backend is
initialised, and the destructor then shuts both backends down all the same,
because the renderer handle is not null. -/
theorem destructor_releases_unacquired_backends :
    (Init ⟨false, false⟩ platformScaleZero Application.new).1 = false ∧
      (Init ⟨false, false⟩ platformScaleZero Application.new).2.2
        = [Call.SDL_Init, Call.SDL_CreateWindowAndRenderer, Call.ImGui_CreateContext] ∧
      Call.ImGui_ImplSDL3_InitForSDLRenderer ∉
        (Init ⟨false, false⟩ platformScaleZero Application.new).2.2 ∧
      Call.ImGui_ImplSDLRenderer3_Init ∉
        (Init ⟨false, false⟩ platformScaleZero Application.new).2.2 ∧
      (Application.destructor
          (Init ⟨false, false⟩ platformScaleZero Application.new).2.1).2
        = [Call.ImGui_ImplSDLRenderer3_Shutdown, Call.ImGui_ImplSDL3_Shutdown,
           Call.ImGui_DestroyContext, Call.SDL_DestroyRenderer 2,
           Call.SDL_DestroyWindow 1, Call.SDL_Quit] := by
  decide

theorem InitGuiConfigure_result (p : Platform) (app : Application) :
    (InitGuiConfigure p app).1
      = (app.m_renderer.isSome && !decide (p.SDL_GetDisplayContentScale = 0)) := by
  unfold InitGuiConfigure
  cases hr : app.m_renderer with
  | none => simp
  | some r =>
    by_cases hs : p.SDL_GetDisplayContentScale = 0 <;> simp [hs]

theorem InitGui_result (opts : BuildOptions) (p : Platform) (app : Application) :
    (InitGui opts p app).1 =
      (p.SDL_Init && !decide (p.SDL_GetPrimaryDisplay = 0) &&
        (!opts.USE_FULLSCREEN ||
          ((GetFullscreenMode p.SDL_GetFullscreenDisplayModes
              p.SDL_GetDesktopDisplayMode).isSome &&
            p.SDL_SetWindowFullscreenMode && p.SDL_SetWindowFullscreen)) &&
        p.SDL_CreateWindowAndRenderer && p.renderer.isSome &&
        !decide (p.SDL_GetDisplayContentScale = 0)) := by
  unfold InitGui
  cases h1 : p.SDL_Init with
  | false => simp
  | true =>
    by_cases h2 : p.SDL_GetPrimaryDisplay = 0
    · simp [h2]
    · cases h3 : opts.USE_FULLSCREEN with
      | false =>
        cases h4 : p.SDL_CreateWindowAndRenderer with
        | false => simp [h2]
        | true => simp [h2, InitGuiConfigure_result]
      | true =>
        cases h5 : GetFullscreenMode p.SDL_GetFullscreenDisplayModes
            p.SDL_GetDesktopDisplayMode with
        | none => simp [h2]
        | some m =>
          cases h4 : p.SDL_CreateWindowAndRenderer <;>
          cases h6 : p.SDL_SetWindowFullscreenMode <;>
          cases h7 : p.SDL_SetWindowFullscreen <;>
          simp [h2, InitGuiConfigure_result]

theorem Init_result (opts : BuildOptions) (p : Platform) (app : Application) :
    (Init opts p app).1 =
      ((InitGui opts p app).1 &&
        p.SDL_GetJoysticks.any (fun j => j.isGamepad && j.openGamepad.isSome)) := by
  unfold Init
  cases h1 : (InitGui opts p app).1 with
  | false => simp [h1]
  | true =>
    have h2 := gamepadLoop_result p.SDL_GetJoysticks (InitGui opts p app).2.1
    unfold InitGamepad
    cases h3 : (gamepadLoop p.SDL_GetJoysticks (InitGui opts p app).2.1).1 with
    | false => rw [h3] at h2; simp [h1, h3, ← h2]
    | true => rw [h3] at h2; simp [h1, h3, ← h2]

/-- C5, as stated, fails: in a build with `_USE_FULLSCREEN`, on a platform
where start-up, the display query, window and renderer creation, the scale
query and gamepad discovery all succeed but `SDL_SetWindowFullscreen` fails,
`Init` returns false. -/
theorem Init_false_outside_listed_causes :
    (Init ⟨true, false⟩ platformFullscreenRefused Application.new).1 = false ∧
      platformFullscreenRefused.SDL_Init = true ∧
      platformFullscreenRefused.SDL_GetPrimaryDisplay ≠ 0 ∧
      platformFullscreenRefused.SDL_CreateWindowAndRenderer = true ∧
      platformFullscreenRefused.renderer ≠ none ∧
      platformFullscreenRefused.SDL_GetDisplayContentScale ≠ 0 ∧
      (InitGamepad Application.new platformFullscreenRefused.SDL_GetJoysticks).1 = true := by
  decide

/-- C5, amended. `Init` returns false exactly when platform start-up fails,
or the primary-display query returns 0, or (fullscreen build only) no
fullscreen mode is obtained or one of the two fullscreen configuration calls
fails, or window and renderer creation fails (the call reports failure or
leaves the renderer null), or the display scale is 0, or no gamepad is opened
by gamepad discovery; the outcomes of the sync-mode and blend-mode
configuration do not change the result. -/
theorem Init_false_iff (opts : BuildOptions) (p : Platform) (app : Application) :
    ((Init opts p app).1 = false ↔
        p.SDL_Init = false ∨ p.SDL_GetPrimaryDisplay = 0 ∨
        (opts.USE_FULLSCREEN = true ∧
          (GetFullscreenMode p.SDL_GetFullscreenDisplayModes p.SDL_GetDesktopDisplayMode = none ∨
            p.SDL_SetWindowFullscreenMode = false ∨ p.SDL_SetWindowFullscreen = false)) ∨
        p.SDL_CreateWindowAndRenderer = false ∨ p.renderer = none ∨
        p.SDL_GetDisplayContentScale = 0 ∨
        ¬ ∃ j ∈ p.SDL_GetJoysticks, j.isGamepad = true ∧ j.openGamepad.isSome = true) ∧
      ∀ vsync blend : Bool,
        (Init opts { p with SDL_SetRenderVSync := vsync, SDL_SetRenderDrawBlendMode := blend }
          app).1 = (Init opts p app).1 := by
  constructor
  · rw [Init_result, InitGui_result]
    have hany : (p.SDL_GetJoysticks.any (fun j => j.isGamepad && j.openGamepad.isSome) = false)
        ↔ ¬ ∃ j ∈ p.SDL_GetJoysticks, j.isGamepad = true ∧ j.openGamepad.isSome = true := by
      rw [← Bool.not_eq_true, List.any_eq_true]
      simp only [Bool.and_eq_true]
    have hmode : ((GetFullscreenMode p.SDL_GetFullscreenDisplayModes
        p.SDL_GetDesktopDisplayMode).isSome = false)
        ↔ GetFullscreenMode p.SDL_GetFullscreenDisplayModes
            p.SDL_GetDesktopDisplayMode = none := by
      cases GetFullscreenMode p.SDL_GetFullscreenDisplayModes
        p.SDL_GetDesktopDisplayMode <;> simp
    have hrend : (p.renderer.isSome = false) ↔ p.renderer = none := by
      cases p.renderer <;> simp
    simp only [Bool.and_eq_false_iff, Bool.or_eq_false_iff, Bool.not_eq_false',
      Bool.not_eq_true', decide_eq_true_eq, decide_eq_false_iff_not, hany, hmode, hrend,
      or_assoc]
  · intro vsync blend
    rw [Init_result, Init_result, InitGui_result, InitGui_result]

/-- C5, amended, on a platform where every inspected call succeeds while the
sync-mode and blend-mode configuration both fail: `Init` returns true in the
windowed and in the fullscreen build. -/
theorem Init_false_iff_witness :
    (Init ⟨false, false⟩ platformAllGood Application.new).1 = true ∧
      (Init ⟨true, false⟩ platformAllGood Application.new).1 = true ∧
      (∀ vsync blend : Bool,
        (Init ⟨false, false⟩
          { platformAllGood with
            SDL_SetRenderVSync := vsync, SDL_SetRenderDrawBlendMode := blend }
          Application.new).1 = (Init ⟨false, false⟩ platformAllGood Application.new).1) :=
  ⟨by decide, by decide, (Init_false_iff ⟨false, false⟩ platformAllGood Application.new).2⟩

/-! ## Frame loop -/

theorem pollLoop_running (events : List SDL_EventType) (app : Application) :
    (pollLoop events app).m_running =
      (app.m_running && !events.any (fun e => decide (e = .SDL_EVENT_QUIT ∨
        e = .SDL_EVENT_WINDOW_CLOSE_REQUESTED ∨ e = .SDL_EVENT_GAMEPAD_REMOVED))) := by
  induction events generalizing app with
  | nil => simp [pollLoop]
  | cons e rest ih =>
    simp only [pollLoop, List.any_cons]
    by_cases he : e = .SDL_EVENT_QUIT ∨ e = .SDL_EVENT_WINDOW_CLOSE_REQUESTED ∨
        e = .SDL_EVENT_GAMEPAD_REMOVED
    · simp only [he, if_true, decide_True, Bool.true_or, Bool.not_true, Bool.and_false]
      rw [ih]; simp
    · simp only [he, if_false, decide_False, Bool.false_or]
      exact ih app

theorem Update_running (app : Application) (f : FrameInput) :
    (Update app f).1.m_running = (app.m_running && !f.stops) := by
  have h := pollLoop_running f.events app
  unfold Update FrameInput.stops
  cases he : f.east with
  | false => simpa using h
  | true => simp

theorem Update_calls (app : Application) (f : FrameInput) :
    (Update app f).2 = [Call.SDL_GetGamepadButton] := rfl

theorem stops_eq_false_iff (f : FrameInput) :
    f.stops = false ↔
      (∀ e ∈ f.events, e ≠ .SDL_EVENT_QUIT ∧ e ≠ .SDL_EVENT_WINDOW_CLOSE_REQUESTED ∧
        e ≠ .SDL_EVENT_GAMEPAD_REMOVED) ∧ f.east = false := by
  unfold FrameInput.stops
  rw [Bool.or_eq_false_iff, ← Bool.not_eq_true, List.any_eq_true]
  simp only [decide_eq_true_eq, not_exists, not_and, not_or]

theorem runLoop_no_signal (opts : BuildOptions) (pre : List FrameInput) (app : Application)
    (hrun : app.m_running = true) (hpre : ∀ g ∈ pre, g.stops = false) :
    runLoop opts pre app = none := by
  induction pre generalizing app with
  | nil => simp [runLoop, hrun]
  | cons g rest ih =>
    have hg : g.stops = false := hpre g (List.mem_cons_self _ _)
    have hnext : (Update app g).1.m_running = true := by
      rw [Update_running, hrun, hg]; rfl
    simp only [runLoop, hrun, if_true]
    rw [ih (Update app g).1 hnext (fun x hx => hpre x (List.mem_cons_of_mem _ hx))]

theorem runLoop_first_signal (opts : BuildOptions) (pre : List FrameInput) (f : FrameInput)
    (post : List FrameInput) (app : Application)
    (hrun : app.m_running = true) (hpre : ∀ g ∈ pre, g.stops = false)
    (hf : f.stops = true) :
    ∃ app2, runLoop opts (pre ++ f :: post) app =
        some (app2, (List.replicate (pre.length + 1) (frameCalls opts)).flatten) ∧
      app2.m_running = false := by
  induction pre generalizing app with
  | nil =>
    have hnext : (Update app f).1.m_running = false := by
      rw [Update_running, hf]; simp
    refine ⟨(Update app f).1, ?_, hnext⟩
    cases post with
    | nil => simp [runLoop, hrun, hnext, Update_calls, Render, frameCalls]
    | cons g rest => simp [runLoop, hrun, hnext, Update_calls, Render, frameCalls]
  | cons g rest ih =>
    have hg : g.stops = false := hpre g (List.mem_cons_self _ _)
    have hnext : (Update app g).1.m_running = true := by
      rw [Update_running, hrun, hg]; rfl
    obtain ⟨app2, hrest, hstop⟩ :=
      ih (Update app g).1 hnext (fun x hx => hpre x (List.mem_cons_of_mem _ hx))
    refine ⟨app2, ?_, hstop⟩
    simp only [List.cons_append, runLoop, List.append_eq, hrun, if_true, Update_calls,
      Render, List.length_cons]
    rw [hrest]
    simp [frameCalls, List.replicate_succ]

theorem count_frames (opts : BuildOptions) (n : Nat) :
    ((List.replicate n (frameCalls opts)).flatten.count Call.SDL_GetGamepadButton = n) ∧
      ((List.replicate n (frameCalls opts)).flatten.count Call.SDL_RenderPresent = n) := by
  induction n with
  | zero => simp
  | succ n ih =>
    rw [List.replicate_succ, List.flatten_cons, List.count_append, List.count_append,
      ih.1, ih.2]
    cases h : opts.USE_ADAPTIVE_SYNC <;> simp [frameCalls, h, List.count_cons] <;> omega

/-- C6. An `Update` entered with the running flag set leaves it set exactly
when none of its drained events is a quit, window-close-request or
gamepad-removed event and the exit button is not pressed.  If the inputs of
the first iterations `pre` carry no such signal and the next input `f`
carries one, `Run` does not return within `pre`, and on `pre ++ f :: post`
it returns after exactly `pre.length + 1` iterations: its call log is that
many frames, each with one `Update` and one `Render`, and the running flag
is false. -/
theorem Run_stops_at_first_signal (opts : BuildOptions) (app : Application)
    (pre : List FrameInput) (f : FrameInput) (post : List FrameInput)
    (hpre : ∀ g ∈ pre, g.stops = false) (hf : f.stops = true) :
    (∀ (a : Application) (g : FrameInput), a.m_running = true →
        ((Update a g).1.m_running = true ↔
          (∀ e ∈ g.events, e ≠ .SDL_EVENT_QUIT ∧ e ≠ .SDL_EVENT_WINDOW_CLOSE_REQUESTED ∧
            e ≠ .SDL_EVENT_GAMEPAD_REMOVED) ∧ g.east = false)) ∧
      Run opts pre app = none ∧
      ∃ app2 calls, Run opts (pre ++ f :: post) app = some (app2, calls) ∧
        app2.m_running = false ∧
        calls = (List.replicate (pre.length + 1) (frameCalls opts)).flatten ∧
        calls.count Call.SDL_GetGamepadButton = pre.length + 1 ∧
        calls.count Call.SDL_RenderPresent = pre.length + 1 := by
  refine ⟨?_, runLoop_no_signal opts pre _ rfl hpre, ?_⟩
  · intro a g ha
    rw [Update_running, ha, ← stops_eq_false_iff]
    cases g.stops <;> simp
  · obtain ⟨app2, hres, hstop⟩ := runLoop_first_signal opts pre f post
      { app with m_running := true } rfl hpre hf
    exact ⟨app2, _, hres, hstop, rfl, (count_frames opts _).1, (count_frames opts _).2⟩

/-- C6 on three frame inputs of which the second carries a quit event. -/
theorem Run_stops_at_first_signal_witness :
    Run ⟨false, false⟩ [⟨[.other 1024], false, 0, 0, 0, 0⟩] Application.new = none ∧
      ∃ app2 calls,
        Run ⟨false, false⟩ ([⟨[.other 1024], false, 0, 0, 0, 0⟩] ++
          ⟨[.SDL_EVENT_QUIT], false, 0, 0, 0, 0⟩ :: [⟨[], true, 0, 0, 0, 0⟩])
          Application.new = some (app2, calls) ∧
        app2.m_running = false ∧
        calls = (List.replicate (([⟨[.other 1024], false, 0, 0, 0, 0⟩] :
          List FrameInput).length + 1) (frameCalls ⟨false, false⟩)).flatten ∧
        calls.count Call.SDL_GetGamepadButton =
          ([⟨[.other 1024], false, 0, 0, 0, 0⟩] : List FrameInput).length + 1 ∧
        calls.count Call.SDL_RenderPresent =
          ([⟨[.other 1024], false, 0, 0, 0, 0⟩] : List FrameInput).length + 1 :=
  (Run_stops_at_first_signal ⟨false, false⟩ Application.new
    [⟨[.other 1024], false, 0, 0, 0, 0⟩] ⟨[.SDL_EVENT_QUIT], false, 0, 0, 0, 0⟩
    [⟨[], true, 0, 0, 0, 0⟩] (by decide) (by decide)).2

end Core
